import Mathlib

/-!
Verification of the bug-tracker backend (Express + Mongoose) against its
specification.  The definitions below are a shallow embedding of
`server/routes/bugsRouter.js`, `server/models/Bug.js` (the bug schema and its
instance methods) and `server/middleware/errorHandler.js`.

Modelling conventions:
* A Mongo document store is a pure value: `List Bug` for the create/list
  endpoints (Mongo assigns ids on insert), `List (String × Bug)` (id-keyed
  association list) for the by-identifier endpoints.
* JavaScript truthiness of an optional string field (`if (!title) ...`,
  `priority || 'Medium'`) is `truthy` / `jsOr` below: `undefined` is `none`,
  and the empty string is falsy.
* A Mongoose `CastError` (malformed ObjectId) is raised exactly when the id
  string is not a 24-character hex string; Mongoose `save` /
  `runValidators` validation is `validateBug` (required / maxlength / enum
  checks of the schema).  The `trim: true` setters of the schema only
  normalize whitespace; no property below depends on whitespace, so they are
  not modelled.
* Timestamps (`at`, `createdAt`, `updatedAt`) carry no information any claim
  depends on and are omitted from the record.
-/

/-- JavaScript truthiness of an optional string: `undefined` and `""` are
falsy. -/
def truthy : Option String → Bool
  | none => false
  | some s => !s.isEmpty

/-- JavaScript `x || d` for an optional string `x`. -/
def jsOr (x : Option String) (d : String) : String :=
  match x with
  | none => d
  | some s => if s.isEmpty then d else s

/-- `customer` sub-record of the bug schema. -/
structure Customer where
  name : Option String := none
  email : Option String := none
  id : Option String := none
  deriving Repr, DecidableEq

/-- One element of the `comments` array of the bug schema. -/
structure Comment where
  author : String
  message : String
  deriving Repr, DecidableEq

/-- One element of the `statusHistory` array of the bug schema:
`{ from, to, by, at, reason }` (the `at` timestamp is omitted, see header). -/
structure HistoryEntry where
  «from» : Option String
  «to» : String
  «by» : Option String
  reason : Option String
  deriving Repr, DecidableEq

/-- The Bug document (`server/models/Bug.js`).  Timestamps omitted. -/
structure Bug where
  title : String
  description : String
  priority : String
  status : String
  reportedBy : String
  assignedTo : String
  source : String
  customer : Option Customer
  comments : List Comment
  statusHistory : List HistoryEntry
  deriving Repr, DecidableEq

/-- Schema enum for `priority`: `['Low', 'Medium', 'High']`. -/
def validPriority (p : String) : Bool :=
  p = "Low" || p = "Medium" || p = "High"

/-- Schema enum for `status`: `['Open', 'In Progress', 'Resolved']`. -/
def validStatus (s : String) : Bool :=
  s = "Open" || s = "In Progress" || s = "Resolved"

/-- Schema enum for `source`: `['internal', 'customer']`. -/
def validSource (s : String) : Bool :=
  s = "internal" || s = "customer"

/-- Mongoose validation run by `save` / `runValidators`: required fields,
maxlength bounds and enum membership of the bug schema. -/
def validateBug (b : Bug) : Bool :=
  !b.title.isEmpty && b.title.length ≤ 100 &&
  !b.description.isEmpty && b.description.length ≤ 1000 &&
  validPriority b.priority &&
  validStatus b.status &&
  !b.reportedBy.isEmpty && b.reportedBy.length ≤ 50 &&
  validSource b.source &&
  b.comments.all (fun c => !c.author.isEmpty && !c.message.isEmpty &&
    c.message.length ≤ 2000) &&
  b.statusHistory.all (fun h => !h.«to».isEmpty &&
    (h.reason.getD "").length ≤ 500)

/-- Request body of `POST /api/bugs`.  The handler destructures
`{ title, description, priority, reportedBy, assignedTo, source, customer }`;
a `status` field may be present in the JSON body but is never read. -/
structure CreateBody where
  title : Option String := none
  description : Option String := none
  priority : Option String := none
  status : Option String := none
  reportedBy : Option String := none
  assignedTo : Option String := none
  source : Option String := none
  customer : Option Customer := none
  deriving Repr, DecidableEq

/-- Outcome of a create operation before the HTTP response is built. -/
inductive CreateResult where
  /-- The handler's own presence check failed (400). -/
  | badRequest (message : String)
  /-- `save` raised a Mongoose ValidationError (mapped to 400). -/
  | validationError
  /-- `save` succeeded with this document. -/
  | created (bug : Bug)
  deriving Repr, DecidableEq

/-- The document built by `new Bug({...})` in `POST /api/bugs`
(bugsRouter.js lines 28-36): the handler's `||` defaults plus the schema
default `status = "Open"`, since the handler never passes a status. -/
def newBugOf (body : CreateBody) : Bug :=
  { title := body.title.getD ""
    description := body.description.getD ""
    priority := jsOr body.priority "Medium"
    status := "Open"
    reportedBy := body.reportedBy.getD ""
    assignedTo := jsOr body.assignedTo ""
    source := jsOr body.source "internal"
    customer := if body.source = some "customer"
                then some (body.customer.getD {}) else none
    comments := []
    statusHistory := [] }

/-- `POST /api/bugs` up to and including `save` (bugsRouter.js lines 11-38):
presence check on title/description/reportedBy, then `newBug.save()`. -/
def postBug (body : CreateBody) : CreateResult :=
  if !(truthy body.title && truthy body.description && truthy body.reportedBy)
  then
    .badRequest "Title, description, and reportedBy are required fields"
  else if validateBug (newBugOf body) then .created (newBugOf body)
  else .validationError

/-- Request body of `POST /api/bugs/feedback`. -/
structure FeedbackBody where
  title : Option String := none
  description : Option String := none
  customerName : Option String := none
  customerEmail : Option String := none
  customerId : Option String := none
  priority : Option String := none
  deriving Repr, DecidableEq

/-- The document built by `new Bug({...})` in `POST /api/bugs/feedback`
(bugsRouter.js lines 342-349): `source = 'customer'`,
`reportedBy = customerName`, schema defaults elsewhere. -/
def feedbackBugOf (body : FeedbackBody) : Bug :=
  { title := body.title.getD ""
    description := body.description.getD ""
    priority := jsOr body.priority "Medium"
    status := "Open"
    reportedBy := body.customerName.getD ""
    assignedTo := ""
    source := "customer"
    customer := some { name := body.customerName,
                       email := body.customerEmail, id := body.customerId }
    comments := []
    statusHistory := [] }

/-- `POST /api/bugs/feedback` up to and including `save`
(bugsRouter.js lines 334-351): presence check, then `bug.save()`. -/
def postFeedback (body : FeedbackBody) : CreateResult :=
  if !(truthy body.title && truthy body.description &&
       truthy body.customerName) then
    .badRequest "title, description, and customerName are required"
  else if validateBug (feedbackBugOf body) then .created (feedbackBugOf body)
  else .validationError

/-- A JavaScript error value as seen by the error-handling middleware:
its `name`, `message`, optional Mongo driver `code`, and optional
`statusCode` (set only on `ApiError`). -/
structure JsError where
  name : String
  message : String
  code : Option Nat := none
  statusCode : Option Nat := none
  deriving Repr, DecidableEq

/-- The central `errorHandler` middleware
(`server/middleware/errorHandler.js` lines 25-78): maps the error to an HTTP
status code and message.  A Mongoose `CastError` becomes a 404
"Resource not found"; an unrecognized error falls through to
`error.statusCode || 500` with `error.message || 'Server Error'`. -/
def errorHandler (err : JsError) : Nat × String :=
  if err.name = "CastError" then (404, "Resource not found")
  else if err.code = some 11000 then (400, "Duplicate field value entered")
  else if err.name = "ValidationError" then (400, err.message)
  else if err.name = "JsonWebTokenError" then (401, "Invalid token")
  else if err.name = "TokenExpiredError" then (401, "Token expired")
  else (err.statusCode.getD 500,
        if err.message.isEmpty then "Server Error" else err.message)

/-- A MongoDB ObjectId literal is 24 hexadecimal characters; `findById` on
anything else raises a `CastError`. -/
def isValidObjectId (s : String) : Bool :=
  s.length = 24 && s.toList.all (fun c => c.isDigit ||
    ("abcdefABCDEF".toList.contains c))

/-- The id-keyed document store used by the by-identifier endpoints. -/
abbrev Store := List (String × Bug)

/-- Look a bug up by id (Mongoose `findById` on a well-formed id). -/
def Store.findById (store : Store) (id : String) : Option Bug :=
  match store with
  | [] => none
  | (k, b) :: rest => if k = id then some b else Store.findById rest id

/-- Write a (possibly mutated) bug back under its id (`save` /
`findByIdAndUpdate` persistence). -/
def Store.save (store : Store) (id : String) (b : Bug) : Store :=
  match store with
  | [] => []
  | (k, b0) :: rest =>
      if k = id then (k, b) :: rest else (k, b0) :: Store.save rest id b

/-- Remove a bug by id (`findByIdAndDelete`). -/
def Store.erase (store : Store) (id : String) : Store :=
  match store with
  | [] => []
  | (k, b0) :: rest =>
      if k = id then rest else (k, b0) :: Store.erase rest id

/-- Result of a by-identifier endpoint: the store after the call, the HTTP
status code, and the response `message`/`error` text (empty on bodiless
successes). -/
structure EndpointResult where
  store : Store
  status : Nat
  message : String
  deriving Repr, DecidableEq

/-- The `bugSchema.methods.updateStatus` instance method
(Bug.js lines 479-494): rejects a status outside the enum by throwing
`new Error('Invalid status value')`; otherwise sets `status`, pushes a
`{ from: previousStatus, to: newStatus, by: 'system' }` history entry and
saves.  Note it never compares `newStatus` with the stored status. -/
def Bug.updateStatus (bug : Bug) (newStatus : String) : Except JsError Bug :=
  if !validStatus newStatus then
    .error { name := "Error", message := "Invalid status value" }
  else
    .ok { bug with
      status := newStatus
      statusHistory := bug.statusHistory ++
        [{ «from» := some bug.status, «to» := newStatus,
           «by» := some "system", reason := none }] }

/-- Request body of `PATCH /api/bugs/:id/status`:
`{ status, reason, by }`. -/
structure PatchStatusBody where
  status : Option String := none
  reason : Option String := none
  «by» : Option String := none
  deriving Repr, DecidableEq

/-- `PATCH /api/bugs/:id/status` (bugsRouter.js lines 263-304): missing
status → 400; `findById` (CastError on a malformed id propagates to
`errorHandler`); absent bug → 404; otherwise `bug.updateStatus(status)`
(which itself pushes a history entry, saves — validating the document — and
whose thrown error propagates to `errorHandler`), then the handler pushes a
second history entry `{ from: previousStatus, to: status, by: by || 'system',
reason }` and saves again, validating once more.  A save-time
`ValidationError` propagates to `errorHandler` (400); the Mongoose joined
per-field message is abstracted as "Validation failed" and asserted by no
theorem.  When the second save fails, the first save has already persisted
the `updateStatus` entry. -/
def patchStatus (store : Store) (id : String) (body : PatchStatusBody) :
    EndpointResult :=
  if !truthy body.status then
    { store := store, status := 400, message := "Status is required" }
  else if !isValidObjectId id then
    let e := errorHandler { name := "CastError", message := "Cast to ObjectId failed" }
    { store := store, status := e.1, message := e.2 }
  else
    match store.findById id with
    | none => { store := store, status := 404, message := "Bug not found" }
    | some bug =>
        match bug.updateStatus (body.status.getD "") with
        | .error err =>
            let e := errorHandler err
            { store := store, status := e.1, message := e.2 }
        | .ok bug1 =>
            if !validateBug bug1 then
              let e := errorHandler
                { name := "ValidationError", message := "Validation failed" }
              { store := store, status := e.1, message := e.2 }
            else
              let store1 := store.save id bug1
              let previousStatus := bug.status
              let bug2 := { bug1 with statusHistory := bug1.statusHistory ++
                [{ «from» := some previousStatus, «to» := body.status.getD "",
                   «by» := some (jsOr body.«by» "system"),
                   reason := body.reason }] }
              if !validateBug bug2 then
                let e := errorHandler
                  { name := "ValidationError", message := "Validation failed" }
                { store := store1, status := e.1, message := e.2 }
              else
                { store := store1.save id bug2, status := 200,
                  message := "Bug status updated successfully" }

/-- Request body of `PUT /api/bugs/:id` (`updateData`): the schema fields the
update may carry, each absent when not part of the JSON body, plus the
`updatedBy` field read for the history entry. -/
structure PutBody where
  title : Option String := none
  description : Option String := none
  priority : Option String := none
  status : Option String := none
  reportedBy : Option String := none
  assignedTo : Option String := none
  source : Option String := none
  updatedBy : Option String := none
  deriving Repr, DecidableEq

/-- Mongoose `existing.set(updateData)` / `findByIdAndUpdate(id, updateData)`:
overwrite exactly the fields present in the body. -/
def applyUpdate (b : Bug) (u : PutBody) : Bug :=
  { b with
    title := u.title.getD b.title
    description := u.description.getD b.description
    priority := u.priority.getD b.priority
    status := u.status.getD b.status
    reportedBy := u.reportedBy.getD b.reportedBy
    assignedTo := u.assignedTo.getD b.assignedTo
    source := u.source.getD b.source }

/-- Does this PUT take the status-history branch
(`updateData.status && updateData.status !== existing.status`)? -/
def statusChanging (existing : Bug) (u : PutBody) : Bool :=
  truthy u.status && u.status.getD "" ≠ existing.status

/-- The document `PUT /api/bugs/:id` hands to persistence for an existing
bug (bugsRouter.js lines 158-177): when the incoming status is truthy and
differs from the stored one, push `{ from: existing.status, to: new,
by: updatedBy || 'system' }` and apply the update; otherwise just apply the
update (`findByIdAndUpdate` path, no history entry). -/
def putDoc (existing : Bug) (u : PutBody) : Bug :=
  if statusChanging existing u then
    let withHistory := { existing with statusHistory :=
      existing.statusHistory ++
        [{ «from» := some existing.status, «to» := u.status.getD "",
           «by» := some (jsOr u.updatedBy "system"), reason := none }] }
    applyUpdate withHistory u
  else
    applyUpdate existing u

/-- `PUT /api/bugs/:id` (bugsRouter.js lines 150-215): malformed id → the
route's own CastError catch (400 "Invalid bug ID format"); absent bug → 404;
validation failure on save → the route's ValidationError catch (400);
otherwise persist `putDoc`. -/
def putBug (store : Store) (id : String) (u : PutBody) : EndpointResult :=
  if !isValidObjectId id then
    { store := store, status := 400, message := "Invalid bug ID format" }
  else
    match store.findById id with
    | none => { store := store, status := 404, message := "Bug not found" }
    | some existing =>
        let doc := putDoc existing u
        if validateBug doc then
          { store := store.save id doc, status := 200,
            message := "Bug updated successfully" }
        else
          { store := store, status := 400, message := "Validation error" }

/-- `GET /api/bugs/:id` (bugsRouter.js lines 108-144): malformed id → the
route's own CastError catch (400 "Invalid bug ID format"); absent → 404;
found → 200. -/
def getBug (store : Store) (id : String) : EndpointResult :=
  if !isValidObjectId id then
    { store := store, status := 400, message := "Invalid bug ID format" }
  else
    match store.findById id with
    | none => { store := store, status := 404, message := "Bug not found" }
    | some _ => { store := store, status := 200, message := "" }

/-- `DELETE /api/bugs/:id` (bugsRouter.js lines 221-257): malformed id → the
route's own CastError catch (400); absent → 404; found → remove, 200. -/
def deleteBug (store : Store) (id : String) : EndpointResult :=
  if !isValidObjectId id then
    { store := store, status := 400, message := "Invalid bug ID format" }
  else
    match store.findById id with
    | none => { store := store, status := 404, message := "Bug not found" }
    | some _ =>
        { store := store.erase id, status := 200,
          message := "Bug deleted successfully" }

/-- `POST /api/bugs/:id/comments` (bugsRouter.js lines 309-328): missing
author or message → 400 (checked before `findById`); malformed id →
CastError propagates to `errorHandler`; absent bug → 404; otherwise
`bug.addComment(author, message)` appends and saves, 201.  The save
validates the document (comment `message` maxlength 2000); a
`ValidationError` propagates to `errorHandler` (400), with the joined
per-field message abstracted as "Validation failed". -/
def postComment (store : Store) (id : String)
    (author message : Option String) : EndpointResult :=
  if !(truthy author && truthy message) then
    { store := store, status := 400, message := "author and message are required" }
  else if !isValidObjectId id then
    let e := errorHandler { name := "CastError", message := "Cast to ObjectId failed" }
    { store := store, status := e.1, message := e.2 }
  else
    match store.findById id with
    | none => { store := store, status := 404, message := "Bug not found" }
    | some bug =>
        let bug1 := { bug with comments := bug.comments ++
          [{ author := author.getD "", message := message.getD "" }] }
        if !validateBug bug1 then
          let e := errorHandler
            { name := "ValidationError", message := "Validation failed" }
          { store := store, status := e.1, message := e.2 }
        else
          { store := store.save id bug1, status := 201,
            message := "Comment added" }

/-- Query string of `GET /api/bugs`.  The four filter-like parameters a
caller may send; the handler reads only `status` and `priority` (plus
`sortBy`/`order`, which reorder but never add or drop records and are not
modelled). -/
structure ListQuery where
  status : Option String := none
  priority : Option String := none
  source : Option String := none
  assignedTo : Option String := none
  deriving Repr, DecidableEq

/-- The Mongo filter document built by `GET /api/bugs`
(bugsRouter.js lines 74-88): `if (status) filter.status = status;
if (priority) filter.priority = priority;` — nothing else. -/
def matchesFilter (q : ListQuery) (b : Bug) : Bool :=
  (if truthy q.status then b.status = q.status.getD "" else true) &&
  (if truthy q.priority then b.priority = q.priority.getD "" else true)

/-- `GET /api/bugs`: `Bug.find(filter)` over the collection (sorting
reorders only and is not modelled). -/
def findAll (store : List Bug) (q : ListQuery) : List Bug :=
  store.filter (matchesFilter q)

/-- Outcome of the optional outbound Slack webhook call: the environment
has no webhook URL configured, or the POST succeeded, or it failed. -/
inductive WebhookOutcome where
  | notConfigured
  | delivered
  | failed
  deriving Repr, DecidableEq

/-- The `axios.post(SLACK_WEBHOOK_URL, ...)` call as a fallible action. -/
def notifySlack (wh : WebhookOutcome) : Except String Unit :=
  match wh with
  | .failed => .error "Slack notification failed"
  | _ => .ok ()

/-- The `try { await axios.post(...) } catch (notifyErr) { console.error }`
block: the failure is logged and swallowed. -/
def attemptNotify (wh : WebhookOutcome) : Unit :=
  match notifySlack wh with
  | .ok _ => ()
  | .error _ => ()

/-- HTTP response of the create endpoints. -/
structure HttpResponse where
  status : Nat
  success : Bool
  data : Option Bug
  message : String
  deriving Repr, DecidableEq

/-- Full `POST /api/bugs` endpoint over a collection: persistence, then the
webhook attempt (whose outcome is discarded), then the response
(bugsRouter.js lines 11-63). -/
def createEndpoint (store : List Bug) (body : CreateBody)
    (wh : WebhookOutcome) : List Bug × HttpResponse :=
  match postBug body with
  | .badRequest m => (store, { status := 400, success := false, data := none, message := m })
  | .validationError =>
      (store, { status := 400, success := false, data := none, message := "Validation error" })
  | .created b =>
      let _ := attemptNotify wh
      (store ++ [b],
       { status := 201, success := true, data := some b,
         message := "Bug created successfully" })

/-- Full `POST /api/bugs/feedback` endpoint (bugsRouter.js lines 334-368). -/
def feedbackEndpoint (store : List Bug) (body : FeedbackBody)
    (wh : WebhookOutcome) : List Bug × HttpResponse :=
  match postFeedback body with
  | .badRequest m => (store, { status := 400, success := false, data := none, message := m })
  | .validationError =>
      (store, { status := 400, success := false, data := none, message := "Validation error" })
  | .created b =>
      let _ := attemptNotify wh
      (store ++ [b],
       { status := 201, success := true, data := some b,
         message := "Feedback captured as bug" })

/-- A well-formed ObjectId used as a concrete test fixture. -/
def idA : String := "aaaaaaaaaaaaaaaaaaaaaaaa"

/-- The freshly created bug of the spec's scenario
(`Create({title:"Login broken", description:"button unresponsive",
reportedBy:"Jane"})`): all defaults, empty history. -/
def bug0 : Bug :=
  { title := "Login broken"
    description := "button unresponsive"
    priority := "Medium"
    status := "Open"
    reportedBy := "Jane"
    assignedTo := ""
    source := "internal"
    customer := none
    comments := []
    statusHistory := [] }

/-- A concrete create body matching the spec scenario. -/
def body0 : CreateBody :=
  { title := some "Login broken", description := some "button unresponsive",
    reportedBy := some "Jane" }

/-- A concrete feedback body. -/
def feedback0 : FeedbackBody :=
  { title := some "Checkout fails", description := some "cart empties",
    customerName := some "Ann" }

/-- A list query supplying only the `source` filter parameter. -/
def sourceQuery : ListQuery := { source := some "customer" }

/-- A concrete PUT body changing the status and naming the caller. -/
def putBody0 : PutBody := { status := some "Resolved", updatedBy := some "Jane" }

theorem jsOr_of_not_truthy (x : Option String) (d : String)
    (h : truthy x = false) : jsOr x d = d := by
  cases x with
  | none => rfl
  | some s => simp [truthy] at h; simp [jsOr, h]

theorem validStatus_not_empty (s : String) (h : validStatus s = true) :
    s.isEmpty = false := by
  simp [validStatus] at h
  rcases h with (h | h) | h <;> subst h <;> rfl

theorem validateBug_update (b : Bug) (s : String) (es : List HistoryEntry)
    (hb : validateBug b = true) (hs : validStatus s = true)
    (hes : es.all (fun h => !h.«to».isEmpty &&
      (h.reason.getD "").length ≤ 500) = true) :
    validateBug { b with
      status := s,
      statusHistory := b.statusHistory ++ es } = true := by
  simp only [validateBug, Bool.and_eq_true, List.all_append] at hb ⊢
  tauto

theorem findById_save (store : Store) (id : String) (b b0 : Bug)
    (h : store.findById id = some b0) :
    (store.save id b).findById id = some b := by
  induction store with
  | nil => simp [Store.findById] at h
  | cons p rest ih =>
      by_cases hk : p.1 = id
      · simp [Store.save, Store.findById, hk]
      · simp [Store.save, Store.findById, hk] at h ⊢
        exact ih h

/-- C6 — For all Create calls that persist a record (required fields present
and validation passing), the stored record's `status` is "Open", its
`priority` defaults to "Medium" when not supplied, its `source` to
"internal" and its `assignedTo` to the empty string when omitted. -/
theorem create_applies_defaults (body : CreateBody) (b : Bug)
    (h : postBug body = .created b) :
    b.status = "Open" ∧
    (truthy body.priority = false → b.priority = "Medium") ∧
    (truthy body.source = false → b.source = "internal") ∧
    (truthy body.assignedTo = false → b.assignedTo = "") := by
  unfold postBug at h
  split at h
  · exact absurd h (by simp)
  · split at h
    · have hb : b = newBugOf body := by
        cases h; rfl
      subst hb
      refine ⟨rfl, ?_, ?_, ?_⟩
      · intro hp; simp [newBugOf, jsOr_of_not_truthy _ _ hp]
      · intro hs; simp [newBugOf, jsOr_of_not_truthy _ _ hs]
      · intro ha; simp [newBugOf, jsOr_of_not_truthy _ _ ha]
    · exact absurd h (by simp)

theorem create_applies_defaults_witness :
    bug0.status = "Open" ∧
    (truthy body0.priority = false → bug0.priority = "Medium") ∧
    (truthy body0.source = false → bug0.source = "internal") ∧
    (truthy body0.assignedTo = false → bug0.assignedTo = "") :=
  create_applies_defaults body0 bug0 (by decide)

/-- C7 — A Create call missing any of the required fields `title`,
`description`, `reportedBy` yields a 400 response and persists nothing:
the collection after the call is the collection before it. -/
theorem create_missing_required_rejected (store : List Bug)
    (body : CreateBody) (wh : WebhookOutcome)
    (h : body.title = none ∨ body.description = none ∨
         body.reportedBy = none) :
    (createEndpoint store body wh).2.status = 400 ∧
    (createEndpoint store body wh).2.success = false ∧
    (createEndpoint store body wh).1 = store := by
  have hpost : postBug body =
      .badRequest "Title, description, and reportedBy are required fields" := by
    unfold postBug
    rcases h with h | h | h <;> simp [h, truthy]
  simp [createEndpoint, hpost]

theorem create_missing_required_rejected_witness :
    (createEndpoint [bug0] { title := some "t" } .notConfigured).2.status = 400 ∧
    (createEndpoint [bug0] { title := some "t" } .notConfigured).2.success = false ∧
    (createEndpoint [bug0] { title := some "t" } .notConfigured).1 = [bug0] :=
  create_missing_required_rejected [bug0] { title := some "t" }
    .notConfigured (Or.inr (Or.inl rfl))

/-- C9 — `POST /api/bugs` never reads a `status` field from the request
body: the outcome is identical whether or not the body carries one, and
every created bug has status "Open". -/
theorem create_ignores_body_status (body : CreateBody) (b : Bug) :
    postBug body = postBug { body with status := none } ∧
    (postBug body = .created b → b.status = "Open") := by
  constructor
  · cases body; rfl
  · intro h
    exact (create_applies_defaults body b h).1

theorem create_ignores_body_status_witness :
    postBug { body0 with status := some "Resolved" } =
      postBug { { body0 with status := some "Resolved" } with status := none } ∧
    (postBug { body0 with status := some "Resolved" } = .created bug0 →
      bug0.status = "Open") :=
  create_ignores_body_status { body0 with status := some "Resolved" } bug0

/-- C8 — The outbound webhook never affects the HTTP outcome: for both
create endpoints the response and the persisted collection are identical for
every webhook outcome, and a successful create answers 201 with the saved
record. -/
theorem webhook_never_affects_outcome (store : List Bug) (body : CreateBody)
    (fb : FeedbackBody) (wh wh' : WebhookOutcome) :
    createEndpoint store body wh = createEndpoint store body wh' ∧
    feedbackEndpoint store fb wh = feedbackEndpoint store fb wh' ∧
    (∀ b, postBug body = .created b →
      createEndpoint store body wh = (store ++ [b],
        { status := 201, success := true, data := some b,
          message := "Bug created successfully" })) ∧
    (∀ b, postFeedback fb = .created b →
      feedbackEndpoint store fb wh = (store ++ [b],
        { status := 201, success := true, data := some b,
          message := "Feedback captured as bug" })) := by
  refine ⟨?_, ?_, ?_, ?_⟩
  · cases hp : postBug body <;> simp [createEndpoint, hp]
  · cases hp : postFeedback fb <;> simp [feedbackEndpoint, hp]
  · intro b hb; simp [createEndpoint, hb]
  · intro b hb; simp [feedbackEndpoint, hb]

theorem webhook_never_affects_outcome_witness :
    createEndpoint [] body0 .failed = createEndpoint [] body0 .delivered ∧
    createEndpoint [] body0 .failed = ([bug0],
      { status := 201, success := true, data := some bug0,
        message := "Bug created successfully" }) :=
  ⟨(webhook_never_affects_outcome [] body0 feedback0 .failed .delivered).1,
   (webhook_never_affects_outcome [] body0 feedback0 .failed
      .delivered).2.2.1 bug0 (by decide)⟩

/-- C10 — A PATCH whose new status equals the stored status is not a no-op:
it still answers 200, persists, and appends history entries whose `from`
equals their `to` (two of them, one from `updateStatus` and one from the
handler). -/
theorem patch_same_status_not_noop (store : Store) (id : String) (bug : Bug)
    (s : String) (pb : PatchStatusBody) (hid : isValidObjectId id = true)
    (hfind : store.findById id = some bug) (hstat : bug.status = s)
    (hvalid : validStatus s = true) (hpb : pb.status = some s)
    (hbug : validateBug bug = true)
    (hreason : (pb.reason.getD "").length ≤ 500) :
    (patchStatus store id pb).status = 200 ∧
    (patchStatus store id pb).store.findById id =
      some { bug with
        status := s,
        statusHistory := bug.statusHistory ++
          [{ «from» := some s, «to» := s, «by» := some "system", reason := none },
           { «from» := some s, «to» := s, «by» := some (jsOr pb.«by» "system"),
             reason := pb.reason }] }
    := by
  subst hstat
  have hne : bug.status.isEmpty = false := validStatus_not_empty _ hvalid
  have hv1 : validateBug { bug with
      status := bug.status,
      statusHistory := bug.statusHistory ++
        [{ «from» := some bug.status, «to» := bug.status,
           «by» := some "system", reason := none }] } = true :=
    validateBug_update bug bug.status _ hbug hvalid (by simp [hne])
  have hv2 : validateBug { bug with
      status := bug.status,
      statusHistory := bug.statusHistory ++
        [{ «from» := some bug.status, «to» := bug.status,
           «by» := some "system", reason := none },
         { «from» := some bug.status, «to» := bug.status,
           «by» := some (jsOr pb.«by» "system"), reason := pb.reason }] }
      = true :=
    validateBug_update bug bug.status _ hbug hvalid (by simp [hne, hreason])
  have hsave1 : (store.save id { bug with
      status := bug.status,
      statusHistory := bug.statusHistory ++
        [{ «from» := some bug.status, «to» := bug.status,
           «by» := some "system", reason := none }] }).findById id =
      some { bug with
        status := bug.status,
        statusHistory := bug.statusHistory ++
          [{ «from» := some bug.status, «to» := bug.status,
             «by» := some "system", reason := none }] } :=
    findById_save store id _ bug hfind
  have hsave2 := findById_save (store.save id { bug with
      status := bug.status,
      statusHistory := bug.statusHistory ++
        [{ «from» := some bug.status, «to» := bug.status,
           «by» := some "system", reason := none }] }) id
    { bug with
      status := bug.status,
      statusHistory := bug.statusHistory ++
        [{ «from» := some bug.status, «to» := bug.status,
           «by» := some "system", reason := none },
         { «from» := some bug.status, «to» := bug.status,
           «by» := some (jsOr pb.«by» "system"), reason := pb.reason }] }
    _ hsave1
  constructor
  · simp [patchStatus, truthy, hne, hid, hfind, Bug.updateStatus, hvalid,
      hpb, hv1, hv2]
  · simp [patchStatus, truthy, hne, hid, hfind, Bug.updateStatus, hvalid,
      hpb, hv1, hv2, hsave2]

theorem patch_same_status_not_noop_witness :
    (patchStatus [(idA, bug0)] idA { status := some "Open" }).status = 200 ∧
    (patchStatus [(idA, bug0)] idA { status := some "Open" }).store.findById
        idA = some { bug0 with
      status := "Open",
      statusHistory := bug0.statusHistory ++
        [{ «from» := some "Open", «to» := "Open", «by» := some "system",
           reason := none },
         { «from» := some "Open", «to» := "Open",
           «by» := some (jsOr (PatchStatusBody.«by» { status := some "Open" })
             "system"),
           reason := PatchStatusBody.reason { status := some "Open" } }] } :=
  patch_same_status_not_noop [(idA, bug0)] idA bug0 "Open"
    { status := some "Open" } (by decide) (by decide) (by decide) (by decide)
    (by decide) (by decide) (by decide)

/-- C5 — On an existing record, PUT appends exactly one `statusHistory`
entry `{from: old, to: new, by: updatedBy || 'system'}` exactly when the
incoming status is present and differs from the stored one, and none
otherwise; the resulting document is what gets persisted. -/
theorem put_status_history_append (store : Store) (id : String)
    (existing : Bug) (u : PutBody) (hid : isValidObjectId id = true)
    (hfind : store.findById id = some existing)
    (hval : validateBug (putDoc existing u) = true) :
    (putBug store id u).status = 200 ∧
    (putBug store id u).store.findById id = some (putDoc existing u) ∧
    (statusChanging existing u = true →
      (putDoc existing u).statusHistory = existing.statusHistory ++
        [{ «from» := some existing.status, «to» := u.status.getD "",
           «by» := some (jsOr u.updatedBy "system"), reason := none }]) ∧
    (statusChanging existing u = false →
      (putDoc existing u).statusHistory = existing.statusHistory) := by
  have hsave : ∀ b, (store.save id b).findById id = some b :=
    fun b => findById_save store id b existing hfind
  refine ⟨?_, ?_, ?_, ?_⟩
  · simp [putBug, hid, hfind, hval]
  · simp [putBug, hid, hfind, hval, hsave]
  · intro hc; simp [putDoc, hc, applyUpdate]
  · intro hc; simp [putDoc, hc, applyUpdate]

theorem put_status_history_append_witness :
    (putBug [(idA, bug0)] idA putBody0).status = 200 ∧
    (putDoc bug0 putBody0).statusHistory = bug0.statusHistory ++
      [{ «from» := some bug0.status, «to» := putBody0.status.getD "",
         «by» := some (jsOr putBody0.updatedBy "system"), reason := none }] :=
  ⟨(put_status_history_append [(idA, bug0)] idA bug0 putBody0 (by decide)
      (by decide) (by decide)).1,
   (put_status_history_append [(idA, bug0)] idA bug0 putBody0 (by decide)
      (by decide) (by decide)).2.2.1 (by decide)⟩

/-- C4 (counterexample) — The list filter is not a conjunction over
`source`: a record whose `source` is "internal" is still returned when the
query supplies `source=customer`, so a returned record need not match a
supplied `source` filter value. -/
theorem findAll_source_filter_cex :
    sourceQuery.source = some "customer" ∧
    bug0 ∈ findAll [bug0] sourceQuery ∧
    bug0.source ≠ "customer" := by decide

/-- C4 (amended) — The list filter is an exact-match conjunction over the
supplied members of {status, priority} only: a record is returned iff it is
in the collection and matches every supplied value of those two fields;
`source` and `assignedTo` query parameters impose no constraint. -/
theorem findAll_exact_match (store : List Bug) (q : ListQuery) (b : Bug) :
    (b ∈ findAll store q ↔
      b ∈ store ∧
      (truthy q.status = true → b.status = q.status.getD "") ∧
      (truthy q.priority = true → b.priority = q.priority.getD "")) ∧
    findAll store q =
      findAll store { status := q.status, priority := q.priority } := by
  constructor
  · by_cases hs : truthy q.status <;> by_cases hp : truthy q.priority <;>
      simp [findAll, List.mem_filter, matchesFilter, hs, hp]
  · cases q; rfl

theorem findAll_exact_match_witness :
    (bug0 ∈ findAll [bug0] sourceQuery ↔
      bug0 ∈ [bug0] ∧
      (truthy sourceQuery.status = true →
        bug0.status = sourceQuery.status.getD "") ∧
      (truthy sourceQuery.priority = true →
        bug0.priority = sourceQuery.priority.getD "")) ∧
    findAll [bug0] sourceQuery =
      findAll [bug0] { status := sourceQuery.status,
                       priority := sourceQuery.priority } :=
  findAll_exact_match [bug0] sourceQuery bug0

/-- C3 (counterexample) — A malformed identifier on
`PATCH /api/bugs/:id/status` (status supplied) is answered 404, the same
status code as NotFound, not the claimed 400. -/
theorem malformed_id_patch_cex :
    isValidObjectId "xyz" = false ∧
    (patchStatus [] "xyz" { status := some "Open" }).status = 404 ∧
    (patchStatus [] "xyz" { status := some "Open" }).status ≠ 400 ∧
    (patchStatus [] "xyz" { status := some "Open" }).message =
      "Resource not found" := by decide

/-- C3 (amended) — A malformed identifier yields 400 "Invalid bug ID format"
(distinct from the 404 NotFound) on FindById, ReplaceFields and Delete, but
on SetStatus (status supplied) and AppendComment (author and message
supplied) the cast failure reaches the central error handler, which answers
404 "Resource not found" — the same status code as NotFound. -/
theorem malformed_id_status_codes (store : Store) (id : String) (u : PutBody)
    (pb : PatchStatusBody) (author message : Option String)
    (hid : isValidObjectId id = false) :
    (getBug store id).status = 400 ∧
    (getBug store id).message = "Invalid bug ID format" ∧
    (putBug store id u).status = 400 ∧
    (deleteBug store id).status = 400 ∧
    (truthy pb.status = true → (patchStatus store id pb).status = 404 ∧
      (patchStatus store id pb).message = "Resource not found") ∧
    (truthy author = true → truthy message = true →
      (postComment store id author message).status = 404 ∧
      (postComment store id author message).message = "Resource not found")
    := by
  refine ⟨?_, ?_, ?_, ?_, ?_, ?_⟩
  · simp [getBug, hid]
  · simp [getBug, hid]
  · simp [putBug, hid]
  · simp [deleteBug, hid]
  · intro ht; constructor <;> simp [patchStatus, hid, ht, errorHandler]
  · intro ha hm; constructor <;> simp [postComment, hid, ha, hm, errorHandler]

theorem malformed_id_status_codes_witness :
    (getBug [] "xyz").status = 400 ∧
    (getBug [] "xyz").message = "Invalid bug ID format" ∧
    (putBug [] "xyz" putBody0).status = 400 ∧
    (deleteBug [] "xyz").status = 400 ∧
    (truthy (PatchStatusBody.status { status := some "Open" }) = true →
      (patchStatus [] "xyz" { status := some "Open" }).status = 404 ∧
      (patchStatus [] "xyz" { status := some "Open" }).message =
        "Resource not found") ∧
    (truthy (some "a") = true → truthy (some "m") = true →
      (postComment [] "xyz" (some "a") (some "m")).status = 404 ∧
      (postComment [] "xyz" (some "a") (some "m")).message =
        "Resource not found") :=
  malformed_id_status_codes [] "xyz" putBody0 { status := some "Open" }
    (some "a") (some "m") (by decide)

/-- C2 (counterexample) — A SetStatus with the out-of-enum value "Closed" on
a stored bug leaves the store unchanged but answers 500, not the claimed
400. -/
theorem patch_invalid_status_cex :
    (patchStatus [(idA, bug0)] idA { status := some "Closed" }).status = 500 ∧
    (patchStatus [(idA, bug0)] idA { status := some "Closed" }).status ≠ 400 ∧
    (patchStatus [(idA, bug0)] idA { status := some "Closed" }).store =
      [(idA, bug0)] := by decide

/-- C2 (amended) — A SetStatus whose new status is outside
{Open, In Progress, Resolved} always fails and leaves the stored record
(and the whole store) unchanged, but the failure is the thrown
"Invalid status value" error, which the central handler surfaces as a
generic 500, not a 400. -/
theorem patch_invalid_status_rejected (store : Store) (id : String)
    (bug : Bug) (pb : PatchStatusBody) (hid : isValidObjectId id = true)
    (hfind : store.findById id = some bug) (ht : truthy pb.status = true)
    (hbad : validStatus (pb.status.getD "") = false) :
    (patchStatus store id pb).status = 500 ∧
    (patchStatus store id pb).message = "Invalid status value" ∧
    (patchStatus store id pb).store = store := by
  have hmsg : ("Invalid status value" : String).isEmpty = false := by decide
  refine ⟨?_, ?_, ?_⟩ <;>
    simp [patchStatus, hid, hfind, ht, hbad, Bug.updateStatus, errorHandler,
      hmsg]

theorem patch_invalid_status_rejected_witness :
    (patchStatus [(idA, bug0)] idA { status := some "Closed" }).status = 500 ∧
    (patchStatus [(idA, bug0)] idA { status := some "Closed" }).message =
      "Invalid status value" ∧
    (patchStatus [(idA, bug0)] idA { status := some "Closed" }).store =
      [(idA, bug0)] :=
  patch_invalid_status_rejected [(idA, bug0)] idA bug0
    { status := some "Closed" } (by decide) (by decide) (by decide) (by decide)

/-- C1 — Evaluating the code at the failing input: one PATCH of a freshly
created bug (empty history) from "Open" to "In Progress" stores TWO
`statusHistory` entries — one pushed inside `updateStatus`, one pushed by
the route handler — where the claim (and the spec's own scenario) expects
exactly one. -/
theorem patch_appends_two_entries :
    bug0.statusHistory = [] ∧
    (patchStatus [(idA, bug0)] idA
        { status := some "In Progress", «by» := some "Jane" }).store.findById
      idA = some { bug0 with
        status := "In Progress",
        statusHistory :=
          [{ «from» := some "Open", «to» := "In Progress",
             «by» := some "system", reason := none },
           { «from» := some "Open", «to» := "In Progress",
             «by» := some "Jane", reason := none }] } ∧
    ((patchStatus [(idA, bug0)] idA
        { status := some "In Progress", «by» := some "Jane" }).store.findById
      idA).map (fun b => b.statusHistory.length) = some 2 := by decide
